import Mathlib

/-!
Shallow embedding of the order/payment core of `app.py` (a Flask top-up shop).

Modelled faithfully from the source:
* the SQLite `orders` and `item_prices` tables become lists of records;
* the process-wide dicts `users_in_payment : user_id -> order_id` and
  `order_user_map : order_id -> user_id` become association lists with
  Python-dict semantics (`listSet` overwrites, `listPop` removes);
* sources of nondeterminism (the random `order_id`, the QR issuer result,
  timestamps, and the sequence of HTTP poll outcomes) are explicit inputs;
* Python exceptions that escape a handler are modelled with `Except`.

Every definition mirrors a concrete piece of `app.py`; line numbers are cited
in the doc comments.
-/

namespace WG

/-- Characters stripped by Python `str.strip()` (ASCII whitespace). -/
def pyIsSpace (c : Char) : Bool :=
  c = ' ' || c = '\t' || c = '\n' || c = '\r' || c = '\x0b' || c = '\x0c'

/-- Python `str.strip()`: drop leading and trailing whitespace. -/
def pyStrip (s : String) : String :=
  String.mk (((s.toList.dropWhile pyIsSpace).reverse.dropWhile pyIsSpace).reverse)

/-- Truthiness of `request.form.get(...)`: `None` and `""` are falsy,
every non-empty string is truthy (Python truth test on `Optional[str]`). -/
def pyTruthy : Option String → Bool
  | none => false
  | some s => !(s == "")

/-- Python dict lookup `d.get(k)` on an association list. -/
def listGet {K V : Type} [DecidableEq K] (k : K) : List (K × V) → Option V
  | [] => none
  | p :: rest => if p.1 = k then some p.2 else listGet k rest

/-- Python dict deletion `d.pop(k, None)` on an association list. -/
def listPop {K V : Type} [DecidableEq K] (k : K) : List (K × V) → List (K × V)
  | [] => []
  | p :: rest => if p.1 = k then listPop k rest else p :: listPop k rest

/-- Python dict assignment `d[k] = v` on an association list (overwrites). -/
def listSet {K V : Type} [DecidableEq K] (k : K) (v : V) (l : List (K × V)) :
    List (K × V) :=
  (k, v) :: listPop k l

/-- JSON values as returned by `resp.json()` in the poller
(`app.py` line 182); numbers are modelled by integers, which is enough for
the payment API's `{success, status}` shapes. -/
inductive Json : Type where
  | null : Json
  | bool (b : Bool) : Json
  | num (n : Int) : Json
  | str (s : String) : Json
  | arr (xs : List Json) : Json
  | obj (fields : List (String × Json)) : Json

/-- Python truthiness of a JSON value (`if data.get("success") ...`). -/
def truthy : Json → Bool
  | .null => false
  | .bool b => b
  | .num n => !(n == 0)
  | .str s => !(s == "")
  | .arr xs => !xs.isEmpty
  | .obj fs => !fs.isEmpty

/-- `data.get(k)` on a parsed JSON value.  On a non-dict value the real call
raises `AttributeError`, which `run_checker` catches in its blanket
`except Exception` (line 207) right where this lookup happens, after the
`payment_response` write; behaviourally that iteration is identical to the
condition being false, which returning `none` here reproduces. -/
def pyGet (j : Json) (k : String) : Option Json :=
  match j with
  | .obj fs => listGet k fs
  | _ => none

mutual

/-- Python `repr` of a parsed-JSON value (used inside containers by `str`). -/
def pyRepr : Json → String
  | .null => "None"
  | .bool b => if b then "True" else "False"
  | .num n => toString n
  | .str s => "\x27" ++ s ++ "\x27"
  | .arr xs => "[" ++ pyReprList xs ++ "]"
  | .obj fs => "\x7b" ++ pyReprFields fs ++ "\x7d"

/-- Comma-joined `repr`s of list elements. -/
def pyReprList : List Json → String
  | [] => ""
  | [x] => pyRepr x
  | x :: y :: rest => pyRepr x ++ ", " ++ pyReprList (y :: rest)

/-- Comma-joined `repr`s of dict items. -/
def pyReprFields : List (String × Json) → String
  | [] => ""
  | [(k, v)] => "\x27" ++ k ++ "\x27: " ++ pyRepr v
  | (k, v) :: q :: rest =>
      "\x27" ++ k ++ "\x27: " ++ pyRepr v ++ ", " ++ pyReprFields (q :: rest)

end

/-- Python `str(data)` as stored into `payment_response`
(`app.py` lines 188 and 195): a top-level string prints bare, every other
value prints as its `repr`. -/
def pyStr : Json → String
  | .str s => s
  | j => pyRepr j

/-- The poller's completion test (`app.py` line 191):
`data.get("success") and data.get("status") == "PAID"` — Python truthiness
on the `success` member, string equality on the `status` member. -/
def paidCond (data : Json) : Bool :=
  (match pyGet data "success" with
   | some v => truthy v
   | none => false) &&
  (match pyGet data "status" with
   | some (.str s) => s == "PAID"
   | _ => false)

/-- One poll attempt's outcome: a transport-level failure
(`requests.RequestException`, logged and swallowed, line 205) or a parsed
JSON body. -/
inductive PollEvent : Type where
  | transportError : PollEvent
  | response (data : Json) : PollEvent

/-- A row of the `item_prices` table (`app.py` lines 61-68). -/
structure Item : Type where
  item_id : String
  game : String
  normal_price : Rat
  reseller_price : Rat
  deriving DecidableEq

/-- A row of the `orders` table (`app.py` lines 70-85).  `payment_response`
and `paid_at` are NULL until the poller writes them. -/
structure Order : Type where
  order_id : String
  user_id : Int
  game : String
  item_id : String
  amount : Rat
  server_id : String
  zone_id : String
  md5 : String
  status : String
  payment_response : Option String
  created_at : String
  paid_at : Option String
  deriving DecidableEq

/-- The mutable state of the process: the two persisted tables plus the two
process-wide dicts (`users_in_payment`, line 31, and `order_user_map`,
lines 226-230). -/
structure AppState : Type where
  items : List Item
  orders : List Order
  users_in_payment : List (Int × String)
  order_user_map : List (String × Int)
  deriving DecidableEq

/-- `SELECT ... FROM orders WHERE order_id=?` followed by `fetchone()`:
first row with the given primary key. -/
def ordersFind : List Order → String → Option Order
  | [], _ => none
  | o :: rest, oid => if o.order_id = oid then some o else ordersFind rest oid

/-- `UPDATE orders SET ... WHERE order_id=?`: rewrite every matching row
(at most one, since `order_id` is the primary key). -/
def updateOrders (oid : String) (f : Order → Order) (l : List Order) :
    List Order :=
  l.map (fun o => if o.order_id = oid then f o else o)

/-- Status column of an order, read through the store. -/
def statusOf (st : AppState) (oid : String) : Option String :=
  (ordersFind st.orders oid).map Order.status

/-- `payment_response` column of an order, read through the store. -/
def paymentResponseOf (st : AppState) (oid : String) : Option (Option String) :=
  (ordersFind st.orders oid).map Order.payment_response

/-- `paid_at` column of an order, read through the store. -/
def paidAtOf (st : AppState) (oid : String) : Option (Option String) :=
  (ordersFind st.orders oid).map Order.paid_at

/-- `amount` column of an order, read through the store. -/
def amountOf (st : AppState) (oid : String) : Option Rat :=
  (ordersFind st.orders oid).map Order.amount

/-- Row change of `UPDATE orders SET payment_response=?` (`app.py` line 188). -/
def respUpdate (resp : String) (o : Order) : Order :=
  { o with payment_response := some resp }

/-- Row change of `UPDATE orders SET status=?, paid_at=?, payment_response=?`
with status `"PAID"` (`app.py` lines 195-196). -/
def paidUpdate (now_str resp : String) (o : Order) : Order :=
  { o with status := "PAID", paid_at := some now_str,
           payment_response := some resp }

/-- Row change of `UPDATE orders SET status=?` with status `"EXPIRED"`
(`app.py` line 219). -/
def expiredUpdate (o : Order) : Order :=
  { o with status := "EXPIRED" }

/-- `UPDATE orders SET payment_response=? WHERE order_id=?`
(`app.py` line 188). -/
def set_payment_response (oid resp : String) (st : AppState) : AppState :=
  { st with orders := updateOrders oid (respUpdate resp) st.orders }

/-- `UPDATE orders SET status=?, paid_at=?, payment_response=? WHERE order_id=?`
with status `"PAID"` (`app.py` lines 195-196). -/
def mark_paid (oid now_str resp : String) (st : AppState) : AppState :=
  { st with orders := updateOrders oid (paidUpdate now_str resp) st.orders }

/-- `UPDATE orders SET status=? WHERE order_id=?` with status `"EXPIRED"`
(`app.py` line 219). -/
def set_status_expired (oid : String) (st : AppState) : AppState :=
  { st with orders := updateOrders oid expiredUpdate st.orders }

/-- `users_in_payment.pop(order_user_map.get(order_id), None)`
(`app.py` lines 201 and 221): remove the guard entry of whichever user the
reverse map associates with this order; a missing reverse entry makes the
pop a no-op (popping key `None`). -/
def clear_guard (oid : String) (st : AppState) : AppState :=
  match listGet oid st.order_user_map with
  | some u => { st with users_in_payment := listPop u st.users_in_payment }
  | none => st

/-- One loop iteration of `run_checker` on a successful HTTP response
(`app.py` lines 186-203): persist `str(data)` unconditionally, then, when
the completion test passes, mark the order paid, clear the guard and stop
(the returned flag is the `break`). -/
def run_checker_iteration (oid now_str : String) (data : Json) (st : AppState) :
    AppState × Bool :=
  let st1 := set_payment_response oid (pyStr data) st
  if paidCond data then
    (clear_guard oid (mark_paid oid now_str (pyStr data) st1), true)
  else
    (st1, false)

/-- The `while`-loop's `else` branch at the 300-second deadline
(`app.py` lines 212-222): re-read the status, set `EXPIRED` only when it is
still `UNPAID`, then clear the guard unconditionally. -/
def run_checker_timeout (oid : String) (st : AppState) : AppState :=
  let st1 :=
    match ordersFind st.orders oid with
    | some o => if o.status = "UNPAID" then set_status_expired oid st else st
    | none => st
  clear_guard oid st1

/-- The whole `run_checker` thread body (`app.py` lines 174-222) over the
sequence of poll outcomes the external endpoint would deliver inside the
300-second window: transport errors are skipped, responses are processed by
`run_checker_iteration` until one `break`s, and exhausting the window runs
the timeout branch. -/
def run_checker (oid now_str : String) : List PollEvent → AppState → AppState
  | [], st => run_checker_timeout oid st
  | .transportError :: rest, st => run_checker oid now_str rest st
  | .response data :: rest, st =>
      let r := run_checker_iteration oid now_str data st
      if r.2 then r.1 else run_checker oid now_str rest r.1

/-- The synchronous part of `check_payment_background`
(`app.py` lines 232-241): look up the order's user and register both
directions, `order_user_map[order_id] = user_id` and
`users_in_payment[user_id] = order_id`, before the thread starts. -/
def check_payment_background (oid : String) (st : AppState) : AppState :=
  match ordersFind st.orders oid with
  | some o =>
      { st with order_user_map := listSet oid o.user_id st.order_user_map,
                users_in_payment := listSet o.user_id oid st.users_in_payment }
  | none => st

/-- `SELECT normal_price FROM item_prices WHERE item_id=? AND game=?`
followed by `fetchone()` (`app.py` lines 290-297). -/
def get_normal_price : List Item → String → String → Option Rat
  | [], _, _ => none
  | it :: rest, i, g =>
      if it.item_id = i ∧ it.game = g then some it.normal_price
      else get_normal_price rest i g

/-- The row `buy` inserts into `orders` (`app.py` lines 307-313):
status starts `UNPAID`; `payment_response` and `paid_at` are NULL.
`server` and `zone` are the already-stripped form values. -/
def buyOrder (u : Int) (g i server zone m t : String) (price : Rat)
    (oid : String) : Order :=
  { order_id := oid, user_id := u, game := g, item_id := i, amount := price,
    server_id := server, zone_id := zone, md5 := m, status := "UNPAID",
    payment_response := none, created_at := t, paid_at := none }

/-- A Python exception escaping a route handler unhandled. -/
inductive PyExn : Type where
  /-- `sqlite3.IntegrityError` from a PRIMARY KEY violation on `INSERT`. -/
  | integrityError : PyExn
  deriving DecidableEq

/-- The HTTP-level outcome of `POST /buy`: each flash-and-redirect error
page, or the deposit page carrying the QR image, the order id and the
amount (`app.py` lines 285-319). -/
inductive BuyResult : Type where
  | validationError : BuyResult
  | itemNotFound : BuyResult
  | qrFailed : BuyResult
  | success (order_id : String) (qr_b64 : String) (amount : Rat) : BuyResult
  deriving DecidableEq

/-- The `buy` route (`app.py` lines 268-319), for a logged-in `user_id`.
Oracle inputs stand for the route's nondeterminism: `gen_order_id` is the
value of `generate_short_transaction_id()`, `qr` is the result of
`generate_qr_code(amount)` (`none` models its `(None, None)` failure
return), `created_at` is `now_iso()`.  The sqlite `with` block rolls back
on error, so a duplicate-key `INSERT` leaves the store unchanged and the
`IntegrityError` — which `buy` does not catch — escapes as `Except.error`. -/
def buy (st : AppState) (user_id : Int)
    (game item_id server_id zone_id : Option String)
    (gen_order_id : String) (qr : Option (String × String))
    (created_at : String) : Except PyExn (BuyResult × AppState) :=
  let server := pyStrip (server_id.getD "")
  let zone := pyStrip (zone_id.getD "")
  if !(pyTruthy game && pyTruthy item_id && !(server == "") && !(zone == "")) then
    .ok (.validationError, st)
  else
    match get_normal_price st.items (item_id.getD "") (game.getD "") with
    | none => .ok (.itemNotFound, st)
    | some amount =>
      match qr with
      | none => .ok (.qrFailed, st)
      | some (qr_b64, md5) =>
        if qr_b64 == "" || md5 == "" then .ok (.qrFailed, st)
        else if (ordersFind st.orders gen_order_id).isSome then
          .error .integrityError
        else
          let o : Order := buyOrder user_id (game.getD "") (item_id.getD "")
            server zone md5 created_at amount gen_order_id
          let st1 : AppState := { st with orders := st.orders ++ [o] }
          .ok (.success gen_order_id qr_b64 amount,
               check_payment_background gen_order_id st1)

/-- `GET /order_status/<order_id>` (`app.py` lines 321-329): the
`(status, payment_response, paid_at)` triple, or `none` for the 404. -/
def order_status (st : AppState) (oid : String) :
    Option (String × Option String × Option String) :=
  (ordersFind st.orders oid).map (fun o => (o.status, o.payment_response, o.paid_at))

/-- `GET /check_payment_status/<user_id>` (`app.py` lines 342-345):
`paid` is true exactly when the user has no guard entry. -/
def check_payment_status (st : AppState) (u : Int) : Bool :=
  (listGet u st.users_in_payment).isNone

/-- The 12-row catalog seeded by `init_db` (`app.py` lines 89-102). -/
def init_items : List Item :=
  [⟨"86_DIAMOND", "MLBB", mkRat 3 100, mkRat 3 100⟩,
   ⟨"172_DIAMAND", "MLBB", mkRat 3 100, mkRat 3 100⟩,
   ⟨"258_DIAMOND", "MLBB", mkRat 3 100, mkRat 3 100⟩,
   ⟨"344_DIAMOND", "MLBB", mkRat 64 10, mkRat 56 10⟩,
   ⟨"429_DIAMOND", "MLBB", mkRat 80 10, mkRat 70 10⟩,
   ⟨"514_DIAMOND", "MLBB", mkRat 96 10, mkRat 84 10⟩,
   ⟨"50_DIAMOND", "FF", mkRat 100 100, mkRat 85 100⟩,
   ⟨"100_DIAMOND", "FF", mkRat 200 100, mkRat 170 100⟩,
   ⟨"310_DIAMOND", "FF", mkRat 580 100, mkRat 520 100⟩,
   ⟨"520_DIAMOND", "FF", mkRat 920 100, mkRat 850 100⟩,
   ⟨"1060_DIAMOND", "FF", mkRat 1840 100, mkRat 1700 100⟩,
   ⟨"2180_DIAMOND", "FF", mkRat 3680 100, mkRat 3400 100⟩]

/-- Whether a poll outcome is a response passing the completion test of
`app.py` line 191 (used to characterise `run_checker`'s final status). -/
def pollEventPaid : PollEvent → Bool
  | .transportError => false
  | .response data => paidCond data

/-- A concrete `UNPAID` order, as `buy` inserts it (`app.py` lines 307-313),
used to instantiate theorems. -/
def exOrder : Order :=
  { order_id := "ORD1", user_id := 1, game := "MLBB", item_id := "86_DIAMOND",
    amount := mkRat 3 100, server_id := "123", zone_id := "45", md5 := "abc123",
    status := "UNPAID", payment_response := none, created_at := "t0",
    paid_at := none }

/-- A concrete state holding `exOrder` with its guard entries set, as left by
`buy` followed by `check_payment_background`. -/
def exState : AppState :=
  { items := init_items, orders := [exOrder],
    users_in_payment := [(1, "ORD1")], order_user_map := [("ORD1", 1)] }

/-- The fresh state right after `init_db`: seeded catalog, no orders. -/
def exEmpty : AppState :=
  { items := init_items, orders := [], users_in_payment := [],
    order_user_map := [] }

/-- The documented completion payload `{"success": true, "status": "PAID"}`. -/
def exPaidJson : Json :=
  Json.obj [("success", Json.bool true), ("status", Json.str "PAID")]

/-- A payload whose `success` member is truthy but is not the boolean
`true`: `{"success": 2, "status": "PAID"}`. -/
def exTruthyJson : Json :=
  Json.obj [("success", Json.num 2), ("status", Json.str "PAID")]

/-- `exOrder` after its poller marked it paid. -/
def exPaidOrder : Order :=
  { exOrder with status := "PAID", paid_at := some "t1",
                 payment_response := some "resp" }

/-- A state holding a completed (`PAID`) order. -/
def exPaidState : AppState :=
  { items := init_items, orders := [exPaidOrder],
    users_in_payment := [], order_user_map := [("ORD1", 1)] }

/-! ### Association-list (Python dict) lemmas -/

theorem listGet_listSet_self {K V : Type} [DecidableEq K] (k : K) (v : V)
    (l : List (K × V)) : listGet k (listSet k v l) = some v := by
  simp [listSet, listGet]

theorem listGet_listPop_self {K V : Type} [DecidableEq K] (k : K)
    (l : List (K × V)) : listGet k (listPop k l) = none := by
  induction l with
  | nil => rfl
  | cons p rest ih =>
      by_cases h : p.1 = k <;> simp [listPop, listGet, h, ih]

theorem listGet_listPop_ne {K V : Type} [DecidableEq K] {k k2 : K}
    (h : k ≠ k2) (l : List (K × V)) :
    listGet k (listPop k2 l) = listGet k l := by
  induction l with
  | nil => rfl
  | cons p rest ih =>
      by_cases h1 : p.1 = k2
      · have h2 : ¬ p.1 = k := by
          intro hk; exact h (hk ▸ h1 ▸ rfl)
        simp [listPop, listGet, h1, h2, ih, Ne.symm h]
      · simp [listPop, listGet, h1, ih]

theorem listGet_listSet_ne {K V : Type} [DecidableEq K] {k k2 : K}
    (h : k ≠ k2) (v : V) (l : List (K × V)) :
    listGet k (listSet k2 v l) = listGet k l := by
  have h2 : ¬ (k2, v).1 = k := fun hk => h (hk ▸ rfl)
  simp [listSet, listGet, h2, listGet_listPop_ne h l]

theorem countP_listPop_self {K V : Type} [DecidableEq K] (k : K)
    (l : List (K × V)) :
    (listPop k l).countP (fun p => p.1 == k) = 0 := by
  induction l with
  | nil => rfl
  | cons p rest ih =>
      by_cases h : p.1 = k <;>
        simp [listPop, h, List.countP_cons, ih]

theorem countP_listSet_self {K V : Type} [DecidableEq K] (k : K) (v : V)
    (l : List (K × V)) :
    (listSet k v l).countP (fun p => p.1 == k) = 1 := by
  simp [listSet, List.countP_cons, countP_listPop_self]

/-! ### Order-store lemmas -/

theorem ordersFind_key {l : List Order} {oid : String} {o : Order}
    (h : ordersFind l oid = some o) : o.order_id = oid := by
  induction l with
  | nil => exact absurd h (by simp [ordersFind])
  | cons a rest ih =>
      by_cases ha : a.order_id = oid
      · simp [ordersFind, ha] at h; rw [← h]; exact ha
      · simp [ordersFind, ha] at h; exact ih h

theorem ordersFind_append_none {l : List Order} {oid : String}
    (h : ordersFind l oid = none) (o : Order) :
    ordersFind (l ++ [o]) oid =
      if o.order_id = oid then some o else none := by
  induction l with
  | nil => simp [ordersFind]
  | cons a rest ih =>
      by_cases ha : a.order_id = oid
      · simp [ordersFind, ha] at h
      · simp [ordersFind, ha] at h ⊢; exact ih h

theorem ordersFind_updateOrders (oid : String) (f : Order → Order)
    (hf : ∀ o, (f o).order_id = o.order_id) (l : List Order) (oid2 : String) :
    ordersFind (updateOrders oid f l) oid2 =
      (ordersFind l oid2).map (fun o => if o.order_id = oid then f o else o) := by
  induction l with
  | nil => rfl
  | cons a rest ih =>
      simp only [updateOrders] at ih ⊢
      by_cases ha : a.order_id = oid
      · by_cases hb : a.order_id = oid2
        · have hfb : (f a).order_id = oid2 := (hf a).trans hb
          have hoo : oid = oid2 := ha.symm.trans hb
          simp [ordersFind, ha, hb, hfb, hoo]
        · have hfb : ¬ (f a).order_id = oid2 := by rw [hf a]; exact hb
          have hoo : ¬ oid = oid2 := fun he => hb (ha.trans he)
          simp [ordersFind, ha, hb, hfb, hoo, ih]
      · by_cases hb : a.order_id = oid2
        · have hoo : ¬ oid2 = oid := fun he => ha (hb.trans he)
          simp [ordersFind, ha, hb, hoo]
        · simp [ordersFind, ha, hb, ih]

theorem ordersFind_updateOrders_ne {oid oid2 : String} (hne : oid2 ≠ oid)
    (f : Order → Order) (hf : ∀ o, (f o).order_id = o.order_id)
    (l : List Order) :
    ordersFind (updateOrders oid f l) oid2 = ordersFind l oid2 := by
  rw [ordersFind_updateOrders oid f hf l oid2]
  cases h : ordersFind l oid2 with
  | none => rfl
  | some o =>
      have hk := ordersFind_key h
      simp [hk, hne]

/-! ### Store-operation lemmas -/

theorem statusOf_set_payment_response (oid r : String) (st : AppState)
    (oid2 : String) :
    statusOf (set_payment_response oid r st) oid2 = statusOf st oid2 := by
  simp only [statusOf, set_payment_response]
  rw [ordersFind_updateOrders oid (respUpdate r) (fun o => rfl)]
  cases ordersFind st.orders oid2 with
  | none => rfl
  | some o =>
      by_cases h : o.order_id = oid <;> simp [h, respUpdate]

theorem statusOf_mark_paid_self {oid : String} {st : AppState} {o : Order}
    (h : ordersFind st.orders oid = some o) (n r : String) :
    statusOf (mark_paid oid n r st) oid = some "PAID" := by
  simp only [statusOf, mark_paid]
  rw [ordersFind_updateOrders oid (paidUpdate n r) (fun o => rfl), h]
  simp [ordersFind_key h, paidUpdate]

theorem paidAtOf_mark_paid_self {oid : String} {st : AppState} {o : Order}
    (h : ordersFind st.orders oid = some o) (n r : String) :
    paidAtOf (mark_paid oid n r st) oid = some (some n) := by
  simp only [paidAtOf, mark_paid]
  rw [ordersFind_updateOrders oid (paidUpdate n r) (fun o => rfl), h]
  simp [ordersFind_key h, paidUpdate]

theorem statusOf_mark_paid_ne {oid oid2 : String} (hne : oid2 ≠ oid)
    (n r : String) (st : AppState) :
    statusOf (mark_paid oid n r st) oid2 = statusOf st oid2 := by
  simp only [statusOf, mark_paid]
  rw [ordersFind_updateOrders_ne hne (paidUpdate n r) (fun o => rfl)]

theorem statusOf_set_status_expired_self {oid : String} {st : AppState}
    {o : Order} (h : ordersFind st.orders oid = some o) :
    statusOf (set_status_expired oid st) oid = some "EXPIRED" := by
  simp only [statusOf, set_status_expired]
  rw [ordersFind_updateOrders oid expiredUpdate (fun o => rfl), h]
  simp [ordersFind_key h, expiredUpdate]

theorem statusOf_set_status_expired_ne {oid oid2 : String} (hne : oid2 ≠ oid)
    (st : AppState) :
    statusOf (set_status_expired oid st) oid2 = statusOf st oid2 := by
  simp only [statusOf, set_status_expired]
  rw [ordersFind_updateOrders_ne hne expiredUpdate (fun o => rfl)]

theorem clear_guard_orders (oid : String) (st : AppState) :
    (clear_guard oid st).orders = st.orders := by
  cases h : listGet oid st.order_user_map <;> simp [clear_guard, h]

theorem clear_guard_map (oid : String) (st : AppState) :
    (clear_guard oid st).order_user_map = st.order_user_map := by
  cases h : listGet oid st.order_user_map <;> simp [clear_guard, h]

theorem statusOf_clear_guard (oid : String) (st : AppState) (oid2 : String) :
    statusOf (clear_guard oid st) oid2 = statusOf st oid2 := by
  simp [statusOf, clear_guard_orders]

theorem paymentResponseOf_set_payment_response_self {oid : String}
    {st : AppState} {o : Order} (h : ordersFind st.orders oid = some o)
    (r : String) :
    paymentResponseOf (set_payment_response oid r st) oid = some (some r) := by
  simp only [paymentResponseOf, set_payment_response]
  rw [ordersFind_updateOrders oid (respUpdate r) (fun o => rfl), h]
  simp [ordersFind_key h, respUpdate]

theorem paymentResponseOf_mark_paid_self {oid : String} {st : AppState}
    {o : Order} (h : ordersFind st.orders oid = some o) (n r : String) :
    paymentResponseOf (mark_paid oid n r st) oid = some (some r) := by
  simp only [paymentResponseOf, mark_paid]
  rw [ordersFind_updateOrders oid (paidUpdate n r) (fun o => rfl), h]
  simp [ordersFind_key h, paidUpdate]

theorem ordersFind_set_payment_response_isSome (oid r : String)
    (st : AppState) (oid2 : String) :
    (ordersFind (set_payment_response oid r st).orders oid2).isSome
      = (ordersFind st.orders oid2).isSome := by
  simp only [set_payment_response]
  rw [ordersFind_updateOrders oid (respUpdate r) (fun o => rfl)]
  cases ordersFind st.orders oid2 <;> rfl

theorem paymentResponseOf_clear_guard (oid : String) (st : AppState)
    (oid2 : String) :
    paymentResponseOf (clear_guard oid st) oid2 = paymentResponseOf st oid2 := by
  simp [paymentResponseOf, clear_guard_orders]

theorem paidAtOf_clear_guard (oid : String) (st : AppState) (oid2 : String) :
    paidAtOf (clear_guard oid st) oid2 = paidAtOf st oid2 := by
  simp [paidAtOf, clear_guard_orders]

/-! ### `run_checker` lemmas -/

theorem run_checker_timeout_map (oid : String) (st : AppState) :
    (run_checker_timeout oid st).order_user_map = st.order_user_map := by
  simp only [run_checker_timeout]
  cases h : ordersFind st.orders oid with
  | none => exact clear_guard_map oid st
  | some o =>
      by_cases hs : o.status = "UNPAID" <;>
        simp [hs, clear_guard_map, set_status_expired]

theorem run_checker_map (oid n : String) (events : List PollEvent)
    (st : AppState) :
    (run_checker oid n events st).order_user_map = st.order_user_map := by
  induction events generalizing st with
  | nil => exact run_checker_timeout_map oid st
  | cons e rest ih =>
      cases e with
      | transportError => exact ih st
      | response data =>
          by_cases hp : paidCond data
          · simp [run_checker, run_checker_iteration, hp, clear_guard_map,
              mark_paid, set_payment_response]
          · simp only [run_checker, run_checker_iteration, hp, if_neg,
              Bool.false_eq_true, ite_false]
            exact ih _

theorem run_checker_guard_cleared {oid : String} {u : Int} (n : String)
    (events : List PollEvent) {st : AppState}
    (h : listGet oid st.order_user_map = some u) :
    listGet u (run_checker oid n events st).users_in_payment = none := by
  induction events generalizing st with
  | nil =>
      simp only [run_checker, run_checker_timeout]
      have hmap : ∀ st1 : AppState, st1.order_user_map = st.order_user_map →
          listGet u (clear_guard oid st1).users_in_payment = none := by
        intro st1 h1
        simp only [clear_guard, h1, h]
        exact listGet_listPop_self u st1.users_in_payment
      cases h2 : ordersFind st.orders oid with
      | none => exact hmap st rfl
      | some o =>
          by_cases hs : o.status = "UNPAID"
          · simp only [hs, if_true]
            exact hmap _ rfl
          · simp only [hs, if_false]
            exact hmap st rfl
  | cons e rest ih =>
      cases e with
      | transportError => exact ih h
      | response data =>
          by_cases hp : paidCond data
          · simp only [run_checker, run_checker_iteration, hp, if_true]
            simp only [clear_guard, mark_paid, set_payment_response, h]
            exact listGet_listPop_self u _
          · simp only [run_checker, run_checker_iteration, hp,
              Bool.false_eq_true, ite_false, if_neg]
            exact ih h

theorem statusOf_run_checker_ne {oid oid2 : String} (hne : oid2 ≠ oid)
    (n : String) (events : List PollEvent) (st : AppState) :
    statusOf (run_checker oid n events st) oid2 = statusOf st oid2 := by
  induction events generalizing st with
  | nil =>
      simp only [run_checker, run_checker_timeout]
      cases h2 : ordersFind st.orders oid with
      | none => exact statusOf_clear_guard oid st oid2
      | some o =>
          by_cases hs : o.status = "UNPAID"
          · simp only [hs, if_true]
            rw [statusOf_clear_guard, statusOf_set_status_expired_ne hne]
          · simp only [hs, if_false]
            exact statusOf_clear_guard oid st oid2
  | cons e rest ih =>
      cases e with
      | transportError => exact ih st
      | response data =>
          by_cases hp : paidCond data
          · simp only [run_checker, run_checker_iteration, hp, if_true]
            rw [statusOf_clear_guard, statusOf_mark_paid_ne hne,
              statusOf_set_payment_response]
          · simp only [run_checker, run_checker_iteration, hp,
              Bool.false_eq_true, ite_false, if_neg]
            rw [ih, statusOf_set_payment_response]

theorem run_checker_timeout_spec (oid : String) (st : AppState) :
    statusOf (run_checker_timeout oid st) oid =
      if statusOf st oid = some "UNPAID" then some "EXPIRED"
      else statusOf st oid := by
  simp only [run_checker_timeout]
  cases h2 : ordersFind st.orders oid with
  | none =>
      have hs : statusOf st oid = none := by simp [statusOf, h2]
      simp [statusOf_clear_guard, hs]
  | some o =>
      have hs : statusOf st oid = some o.status := by simp [statusOf, h2]
      by_cases hu : o.status = "UNPAID"
      · simp only [hu, if_true]
        rw [statusOf_clear_guard, statusOf_set_status_expired_self h2]
        simp [hs, hu]
      · simp only [hu, if_false]
        rw [statusOf_clear_guard]
        simp [hs, hu]

theorem run_checker_preserves_paid {oid : String} (n : String)
    (events : List PollEvent) {st : AppState}
    (h : statusOf st oid = some "PAID") :
    statusOf (run_checker oid n events st) oid = some "PAID" := by
  induction events generalizing st with
  | nil =>
      simp only [run_checker]
      rw [run_checker_timeout_spec, h]
      simp
  | cons e rest ih =>
      cases e with
      | transportError => exact ih h
      | response data =>
          have hfind : ∃ o, ordersFind st.orders oid = some o := by
            cases hx : ordersFind st.orders oid with
            | none => simp [statusOf, hx] at h
            | some o => exact ⟨o, rfl⟩
          obtain ⟨o, ho⟩ := hfind
          by_cases hp : paidCond data
          · simp only [run_checker, run_checker_iteration, hp, if_true]
            have hfind2 : ∃ o2, ordersFind
                (set_payment_response oid (pyStr data) st).orders oid = some o2 := by
              have := ordersFind_set_payment_response_isSome oid (pyStr data) st oid
              rw [ho] at this
              cases hx : ordersFind (set_payment_response oid (pyStr data) st).orders oid with
              | none => rw [hx] at this; simp at this
              | some o2 => exact ⟨o2, rfl⟩
            obtain ⟨o2, ho2⟩ := hfind2
            rw [statusOf_clear_guard, statusOf_mark_paid_self ho2]
          · simp only [run_checker, run_checker_iteration, hp,
              Bool.false_eq_true, ite_false, if_neg]
            exact ih (by rw [statusOf_set_payment_response]; exact h)

theorem run_checker_from_unpaid {oid : String} (n : String)
    (events : List PollEvent) {st : AppState}
    (h : statusOf st oid = some "UNPAID") :
    statusOf (run_checker oid n events st) oid =
      some (if events.any pollEventPaid then "PAID" else "EXPIRED") := by
  induction events generalizing st with
  | nil =>
      simp only [run_checker, List.any_nil, if_false]
      rw [run_checker_timeout_spec, h]
      simp
  | cons e rest ih =>
      cases e with
      | transportError =>
          simp only [List.any_cons, pollEventPaid, Bool.false_or]
          exact ih h
      | response data =>
          have hfind : ∃ o, ordersFind st.orders oid = some o := by
            cases hx : ordersFind st.orders oid with
            | none => simp [statusOf, hx] at h
            | some o => exact ⟨o, rfl⟩
          obtain ⟨o, ho⟩ := hfind
          by_cases hp : paidCond data
          · simp only [run_checker, run_checker_iteration, hp, if_true,
              List.any_cons, pollEventPaid, Bool.true_or]
            have hfind2 : ∃ o2, ordersFind
                (set_payment_response oid (pyStr data) st).orders oid = some o2 := by
              have := ordersFind_set_payment_response_isSome oid (pyStr data) st oid
              rw [ho] at this
              cases hx : ordersFind (set_payment_response oid (pyStr data) st).orders oid with
              | none => rw [hx] at this; simp at this
              | some o2 => exact ⟨o2, rfl⟩
            obtain ⟨o2, ho2⟩ := hfind2
            rw [statusOf_clear_guard, statusOf_mark_paid_self ho2]
          · simp only [run_checker, run_checker_iteration, hp,
              Bool.false_eq_true, ite_false, if_neg, List.any_cons,
              pollEventPaid, Bool.false_or]
            exact ih (by rw [statusOf_set_payment_response]; exact h)

/-! ### `buy` lemmas -/

theorem buy_ok_eq (st : AppState) (u : Int) (g i s z oid b64 m t : String)
    (price : Rat)
    (hg : g ≠ "") (hi : i ≠ "") (hs : pyStrip s ≠ "") (hz : pyStrip z ≠ "")
    (hpr : get_normal_price st.items i g = some price)
    (hb : b64 ≠ "") (hm : m ≠ "")
    (hfresh : ordersFind st.orders oid = none) :
    buy st u (some g) (some i) (some s) (some z) oid (some (b64, m)) t =
      .ok (.success oid b64 price,
        { items := st.items,
          orders := st.orders ++ [buyOrder u g i (pyStrip s) (pyStrip z) m t price oid],
          users_in_payment := listSet u oid st.users_in_payment,
          order_user_map := listSet oid u st.order_user_map }) := by
  have hfound : ordersFind
      (st.orders ++ [buyOrder u g i (pyStrip s) (pyStrip z) m t price oid]) oid
      = some (buyOrder u g i (pyStrip s) (pyStrip z) m t price oid) := by
    rw [ordersFind_append_none hfresh]
    simp [buyOrder]
  simp only [buy, pyTruthy, check_payment_background, Option.getD_some]
  simp [hg, hi, hs, hz, hpr, hb, hm, hfresh, hfound]
  exact ⟨rfl, rfl⟩

/-! ### Claim theorems -/

/-- Claim C3 (confirmed): for every valid purchase request — all four form
fields non-empty (the source strips `server_id`/`zone_id` first), an
existing catalog entry for `(item_id, game)`, a successful QR issuance and
a fresh generated order id — `buy` returns success and creates an order
whose `status` is `UNPAID` and whose `amount` is the catalog's
`normal_price` for that pair. -/
theorem c3_buy_valid_creates_unpaid_order (st : AppState) (u : Int)
    (g i s z oid b64 m t : String) (price : Rat)
    (hg : g ≠ "") (hi : i ≠ "") (hs : pyStrip s ≠ "") (hz : pyStrip z ≠ "")
    (hpr : get_normal_price st.items i g = some price)
    (hb : b64 ≠ "") (hm : m ≠ "")
    (hfresh : ordersFind st.orders oid = none) :
    ∃ st2, buy st u (some g) (some i) (some s) (some z) oid (some (b64, m)) t
        = .ok (.success oid b64 price, st2)
      ∧ statusOf st2 oid = some "UNPAID"
      ∧ amountOf st2 oid = some price := by
  have hfound : ordersFind
      (st.orders ++ [buyOrder u g i (pyStrip s) (pyStrip z) m t price oid]) oid
      = some (buyOrder u g i (pyStrip s) (pyStrip z) m t price oid) := by
    rw [ordersFind_append_none hfresh]
    simp [buyOrder]
  refine ⟨_, buy_ok_eq st u g i s z oid b64 m t price hg hi hs hz hpr hb hm
    hfresh, ?_, ?_⟩
  · show Option.map Order.status (ordersFind
      (st.orders ++ [buyOrder u g i (pyStrip s) (pyStrip z) m t price oid])
      oid) = some "UNPAID"
    rw [hfound]
    rfl
  · show Option.map Order.amount (ordersFind
      (st.orders ++ [buyOrder u g i (pyStrip s) (pyStrip z) m t price oid])
      oid) = some price
    rw [hfound]
    rfl

/-- Witness for C3, the spec's scenario: catalog row
`("86_DIAMOND", "MLBB", 0.03, 0.03)`; a purchase of that item yields an
order with `amount = 0.03` and `status = UNPAID`. -/
theorem c3_buy_valid_creates_unpaid_order_witness :
    get_normal_price exEmpty.items "86_DIAMOND" "MLBB" = some (mkRat 3 100) ∧
    (∃ st2, buy exEmpty 1 (some "MLBB") (some "86_DIAMOND") (some "123")
        (some "45") "ORDER1" (some ("QR64", "md5x")) "t0"
        = .ok (.success "ORDER1" "QR64" (mkRat 3 100), st2)
      ∧ statusOf st2 "ORDER1" = some "UNPAID"
      ∧ amountOf st2 "ORDER1" = some (mkRat 3 100)) :=
  ⟨by decide,
   c3_buy_valid_creates_unpaid_order exEmpty 1 "MLBB" "86_DIAMOND" "123" "45"
     "ORDER1" "QR64" "md5x" "t0" (mkRat 3 100) (by decide) (by decide) (by decide)
     (by decide) (by decide) (by decide) (by decide) (by decide)⟩

/-- Claim C4 (confirmed): a purchase request in which any of the four
required form fields is empty or missing is rejected (`validationError`)
and the state — orders, catalog and both guard maps — is returned
unchanged. -/
theorem c4_buy_empty_field_rejected (st : AppState) (u : Int)
    (g i s z : Option String) (oid : String)
    (qr : Option (String × String)) (t : String)
    (h : g = none ∨ g = some "" ∨ i = none ∨ i = some "" ∨ s = none ∨
         s = some "" ∨ z = none ∨ z = some "") :
    buy st u g i s z oid qr t = .ok (.validationError, st) := by
  have hstrip : pyStrip "" = "" := rfl
  unfold buy
  rcases h with h | h | h | h | h | h | h | h <;> subst h <;>
    simp [pyTruthy, hstrip]

/-- Witness for C4: a request with a missing `zone_id` is rejected without
touching the state. -/
theorem c4_buy_empty_field_rejected_witness :
    ((none : Option String) = none ∨ (none : Option String) = some "" ∨
       some "86_DIAMOND" = none ∨ some "86_DIAMOND" = some "" ∨
       some "123" = none ∨ some "123" = some "" ∨
       (none : Option String) = none ∨ (none : Option String) = some "") ∧
    buy exEmpty 1 (some "MLBB") (some "86_DIAMOND") (some "123") none
      "ORDER1" (some ("QR64", "md5x")) "t0"
      = .ok (.validationError, exEmpty) := by
  constructor
  · right; right; right; right; right; right; left; rfl
  · exact c4_buy_empty_field_rejected exEmpty 1 (some "MLBB")
      (some "86_DIAMOND") (some "123") none "ORDER1" (some ("QR64", "md5x"))
      "t0" (by right; right; right; right; right; right; left; rfl)

/-- Claim C5 (confirmed): a purchase request that passes field validation
but whose `(item_id, game)` pair has no catalog row is rejected
(`itemNotFound`) with the state unchanged, so no order is created. -/
theorem c5_unknown_item_rejected (st : AppState) (u : Int)
    (g i s z : Option String) (oid : String)
    (qr : Option (String × String)) (t : String)
    (hg : pyTruthy g = true) (hi : pyTruthy i = true)
    (hs : pyStrip (s.getD "") ≠ "") (hz : pyStrip (z.getD "") ≠ "")
    (hpr : get_normal_price st.items (i.getD "") (g.getD "") = none) :
    buy st u g i s z oid qr t = .ok (.itemNotFound, st) := by
  unfold buy
  simp [hg, hi, hs, hz, hpr]

/-- Witness for C5: the item exists only for game `MLBB`, so buying it under
game `FF` is rejected with no state change. -/
theorem c5_unknown_item_rejected_witness :
    get_normal_price exEmpty.items "86_DIAMOND" "FF" = none ∧
    buy exEmpty 1 (some "FF") (some "86_DIAMOND") (some "123") (some "45")
      "ORDER1" (some ("QR64", "md5x")) "t0" = .ok (.itemNotFound, exEmpty) :=
  ⟨by decide,
   c5_unknown_item_rejected exEmpty 1 (some "FF") (some "86_DIAMOND")
     (some "123") (some "45") "ORDER1" (some ("QR64", "md5x")) "t0"
     (by decide) (by decide) (by decide) (by decide) (by decide)⟩

/-- Claim C6 (confirmed): when QR issuance fails — `generate_qr_code`
returns its `(None, None)` failure value — `buy` reports the failure
(`qrFailed`) and returns the state unchanged, so no order is persisted. -/
theorem c6_qr_failure_no_order (st : AppState) (u : Int)
    (g i s z : Option String) (oid t : String) (price : Rat)
    (hg : pyTruthy g = true) (hi : pyTruthy i = true)
    (hs : pyStrip (s.getD "") ≠ "") (hz : pyStrip (z.getD "") ≠ "")
    (hpr : get_normal_price st.items (i.getD "") (g.getD "") = some price) :
    buy st u g i s z oid none t = .ok (.qrFailed, st) := by
  unfold buy
  simp [hg, hi, hs, hz, hpr]

/-- Witness for C6: a valid request whose QR issuance fails creates
nothing. -/
theorem c6_qr_failure_no_order_witness :
    get_normal_price exEmpty.items "86_DIAMOND" "MLBB" = some (mkRat 3 100) ∧
    buy exEmpty 1 (some "MLBB") (some "86_DIAMOND") (some "123") (some "45")
      "ORDER1" none "t0" = .ok (.qrFailed, exEmpty) :=
  ⟨by decide,
   c6_qr_failure_no_order exEmpty 1 (some "MLBB") (some "86_DIAMOND")
     (some "123") (some "45") "ORDER1" "t0" (mkRat 3 100) (by decide) (by decide)
     (by decide) (by decide) (by decide)⟩

/-- Counterexample to claim C7 as stated.  `exState` already holds order
`"ORD1"`; a purchase whose generated id collides is NOT handled inside
`buy`: the route has no try/except around the `INSERT` (`app.py`
lines 307-313), so the `sqlite3.IntegrityError` (the `DuplicateKey`
failure) escapes the handler — `buy` evaluates to `Except.error`, not to
any of its handled flash-and-redirect outcomes. -/
theorem c7_counterexample :
    buy exState 1 (some "MLBB") (some "86_DIAMOND") (some "123") (some "45")
      "ORD1" (some ("QR64", "md5x")) "t9" = .error .integrityError := by
  rfl

/-- Claim C7 (amended): invoking the store's create with an `order_id` that
already exists fails with the duplicate-key error, but the failure is NOT
handled by `buy` — the exception propagates out of the route (the sqlite
`with` block rolls the insert back, so the store is untouched). -/
theorem c7_duplicate_key_escapes (st : AppState) (u : Int)
    (g i s z oid b64 m t : String) (price : Rat) (oEx : Order)
    (hg : g ≠ "") (hi : i ≠ "") (hs : pyStrip s ≠ "") (hz : pyStrip z ≠ "")
    (hpr : get_normal_price st.items i g = some price)
    (hb : b64 ≠ "") (hm : m ≠ "")
    (hdup : ordersFind st.orders oid = some oEx) :
    buy st u (some g) (some i) (some s) (some z) oid (some (b64, m)) t
      = .error .integrityError := by
  unfold buy
  simp [pyTruthy, hg, hi, hs, hz, hpr, hb, hm, hdup]

/-- Witness for the amended C7 at a concrete colliding id. -/
theorem c7_duplicate_key_escapes_witness :
    ordersFind exState.orders "ORD1" = some exOrder ∧
    buy exState 1 (some "MLBB") (some "86_DIAMOND") (some "123") (some "45")
      "ORD1" (some ("QR64", "md5x")) "t9" = .error .integrityError :=
  ⟨by decide,
   c7_duplicate_key_escapes exState 1 "MLBB" "86_DIAMOND" "123" "45" "ORD1"
     "QR64" "md5x" "t9" (mkRat 3 100) exOrder (by decide) (by decide)
     (by decide) (by decide) (by decide) (by decide) (by decide) (by decide)⟩

/-- Claim C8 (confirmed): on every successful (non-error) poll response the
iteration persists `str(data)` onto the order's `payment_response`
unconditionally — whether or not the response passes the completion test —
and the stored value is what `order_status` (the `getStatus` reader)
reports. -/
theorem c8_response_persisted_unconditionally (oid n : String) (data : Json)
    (st : AppState) (o : Order) (h : ordersFind st.orders oid = some o) :
    paymentResponseOf (run_checker_iteration oid n data st).1 oid
        = some (some (pyStr data)) ∧
    (∃ stt pa, order_status (run_checker_iteration oid n data st).1 oid
        = some (stt, some (pyStr data), pa)) := by
  have hpr : paymentResponseOf (run_checker_iteration oid n data st).1 oid
      = some (some (pyStr data)) := by
    by_cases hp : paidCond data
    · have hset := ordersFind_set_payment_response_isSome oid (pyStr data) st oid
      rw [h] at hset
      cases hx : ordersFind (set_payment_response oid (pyStr data) st).orders oid with
      | none => rw [hx] at hset; simp at hset
      | some o2 =>
          simp only [run_checker_iteration, hp, if_true]
          rw [paymentResponseOf_clear_guard, paymentResponseOf_mark_paid_self hx]
    · simp only [run_checker_iteration, hp, Bool.false_eq_true, ite_false]
      exact paymentResponseOf_set_payment_response_self h (pyStr data)
  refine ⟨hpr, ?_⟩
  cases hx : ordersFind (run_checker_iteration oid n data st).1.orders oid with
  | none => simp [paymentResponseOf, hx] at hpr
  | some o3 =>
      simp [paymentResponseOf, hx] at hpr
      exact ⟨o3.status, o3.paid_at, by simp [order_status, hx, hpr]⟩

/-- Witness for C8: a pending (non-paid) response is still persisted and
visible through the status endpoint. -/
theorem c8_response_persisted_unconditionally_witness :
    ordersFind exState.orders "ORD1" = some exOrder ∧
    paymentResponseOf
        (run_checker_iteration "ORD1" "t1"
          (Json.obj [("success", Json.bool false)]) exState).1 "ORD1"
      = some (some (pyStr (Json.obj [("success", Json.bool false)]))) ∧
    (∃ stt pa, order_status
        (run_checker_iteration "ORD1" "t1"
          (Json.obj [("success", Json.bool false)]) exState).1 "ORD1"
      = some (stt, some (pyStr (Json.obj [("success", Json.bool false)])), pa)) := by
  refine ⟨by decide, ?_⟩
  exact c8_response_persisted_unconditionally "ORD1" "t1"
    (Json.obj [("success", Json.bool false)]) exState exOrder (by decide)

/-- Claim C10 (confirmed): validation is asymmetric.  `server_id` and
`zone_id` are stripped before the non-empty test, so a whitespace-only
value in either is rejected; `game` and `item_id` are tested unstripped,
so a whitespace-only value in either passes validation and reaches the
catalog lookup (which then fails with `itemNotFound` when no row matches
the raw whitespace string). -/
theorem c10_strip_asymmetry (st : AppState) (u : Int) (w : String)
    (g i s z : String) (oid : String) (qr : Option (String × String))
    (t : String) (hw : pyStrip w = "") :
    (∀ g0 i0 z0, buy st u g0 i0 (some w) z0 oid qr t
       = .ok (.validationError, st)) ∧
    (∀ g0 i0 s0, buy st u g0 i0 s0 (some w) oid qr t
       = .ok (.validationError, st)) ∧
    (w ≠ "" → i ≠ "" → pyStrip s ≠ "" → pyStrip z ≠ "" →
       get_normal_price st.items i w = none →
       buy st u (some w) (some i) (some s) (some z) oid qr t
         = .ok (.itemNotFound, st)) ∧
    (w ≠ "" → g ≠ "" → pyStrip s ≠ "" → pyStrip z ≠ "" →
       get_normal_price st.items w g = none →
       buy st u (some g) (some w) (some s) (some z) oid qr t
         = .ok (.itemNotFound, st)) := by
  refine ⟨?_, ?_, ?_, ?_⟩
  · intro g0 i0 z0
    unfold buy
    simp [hw]
  · intro g0 i0 s0
    unfold buy
    simp [hw]
  · intro hw2 hi hs hz hpr
    unfold buy
    simp [pyTruthy, hw2, hi, hs, hz, hpr]
  · intro hw2 hg hs hz hpr
    unfold buy
    simp [pyTruthy, hw2, hg, hs, hz, hpr]

/-- Witness for C10 with the whitespace-only value `" "`: rejected as
`server_id`, but accepted as `game` and carried into the failing catalog
lookup. -/
theorem c10_strip_asymmetry_witness :
    pyStrip " " = "" ∧
    buy exEmpty 1 (some "MLBB") (some "86_DIAMOND") (some " ") (some "45")
      "ORDER1" (some ("QR64", "md5x")) "t0" = .ok (.validationError, exEmpty) ∧
    (" " ≠ "" ∧ get_normal_price exEmpty.items "86_DIAMOND" " " = none) ∧
    buy exEmpty 1 (some " ") (some "86_DIAMOND") (some "123") (some "45")
      "ORDER1" (some ("QR64", "md5x")) "t0" = .ok (.itemNotFound, exEmpty) := by
  refine ⟨by decide, ?_, ⟨by decide, by decide⟩, ?_⟩
  · exact (c10_strip_asymmetry exEmpty 1 " " "MLBB" "86_DIAMOND" "123" "45"
      "ORDER1" (some ("QR64", "md5x")) "t0" (by decide)).1
      (some "MLBB") (some "86_DIAMOND") (some "45")
  · exact (c10_strip_asymmetry exEmpty 1 " " "MLBB" "86_DIAMOND" "123" "45"
      "ORDER1" (some ("QR64", "md5x")) "t0" (by decide)).2.2.1
      (by decide) (by decide) (by decide) (by decide) (by decide)

/-- Counterexample to claim C1 as stated.  The completion test at `app.py`
line 191 checks Python truthiness of `data.get("success")`, not equality
with `true`: the response `{"success": 2, "status": "PAID"}` has a
`success` member different from the boolean `true`, yet the iteration
still transitions the `UNPAID` order to `PAID`, so "success == true" is
not necessary for the transition. -/
theorem c1_counterexample :
    pyGet exTruthyJson "success" = some (Json.num 2) ∧
    (Json.num 2 = Json.bool true → False) ∧
    statusOf exState "ORD1" = some "UNPAID" ∧
    statusOf (run_checker_iteration "ORD1" "t1" exTruthyJson exState).1 "ORD1"
      = some "PAID" := by
  refine ⟨rfl, ?_, rfl, rfl⟩
  intro heq
  exact Json.noConfusion heq

/-- Claim C1 (amended): a poll response observed within the window makes
the iteration transition the order to PAID — setting `status = "PAID"` and
`paid_at = now`, clearing the user's guard entry, and stopping the poll
loop — if and only if the response's `success` member is truthy (Python
truthiness, not necessarily the boolean `true`) and its `status` member
equals `"PAID"` (the test `paidCond`); every response failing that test
leaves the order's status unchanged. -/
theorem c1_paid_transition_iff (oid n : String) (data : Json)
    (st : AppState) (o : Order) (u : Int)
    (ho : ordersFind st.orders oid = some o)
    (hu : listGet oid st.order_user_map = some u) :
    ((run_checker_iteration oid n data st).2 = paidCond data) ∧
    (paidCond data = true →
       statusOf (run_checker_iteration oid n data st).1 oid = some "PAID" ∧
       paidAtOf (run_checker_iteration oid n data st).1 oid = some (some n) ∧
       listGet u (run_checker_iteration oid n data st).1.users_in_payment
         = none ∧
       ∀ rest, run_checker oid n (PollEvent.response data :: rest) st
         = (run_checker_iteration oid n data st).1) ∧
    (paidCond data = false →
       statusOf (run_checker_iteration oid n data st).1 oid
         = statusOf st oid) := by
  refine ⟨?_, ?_, ?_⟩
  · by_cases hp : paidCond data <;> simp [run_checker_iteration, hp]
  · intro hp
    have hset := ordersFind_set_payment_response_isSome oid (pyStr data) st oid
    rw [ho] at hset
    cases hx : ordersFind (set_payment_response oid (pyStr data) st).orders oid with
    | none => rw [hx] at hset; simp at hset
    | some o2 =>
        refine ⟨?_, ?_, ?_, ?_⟩
        · simp only [run_checker_iteration, hp, if_true]
          rw [statusOf_clear_guard, statusOf_mark_paid_self hx]
        · simp only [run_checker_iteration, hp, if_true]
          rw [paidAtOf_clear_guard, paidAtOf_mark_paid_self hx]
        · simp only [run_checker_iteration, hp, if_true]
          have hmap : (mark_paid oid n (pyStr data)
              (set_payment_response oid (pyStr data) st)).order_user_map
              = st.order_user_map := rfl
          simp only [clear_guard, hmap, hu]
          exact listGet_listPop_self u _
        · intro rest
          simp [run_checker, run_checker_iteration, hp]
  · intro hp
    simp only [run_checker_iteration, hp, Bool.false_eq_true, ite_false]
    exact statusOf_set_payment_response oid (pyStr data) st oid

/-- Witness for the amended C1: the documented payload
`{"success": true, "status": "PAID"}` passes the test, marks the order
paid at the given time, clears user 1's guard entry, and stops polling. -/
theorem c1_paid_transition_iff_witness :
    ordersFind exState.orders "ORD1" = some exOrder ∧
    listGet "ORD1" exState.order_user_map = some 1 ∧
    paidCond exPaidJson = true ∧
    statusOf (run_checker_iteration "ORD1" "t1" exPaidJson exState).1 "ORD1"
      = some "PAID" ∧
    paidAtOf (run_checker_iteration "ORD1" "t1" exPaidJson exState).1 "ORD1"
      = some (some "t1") ∧
    listGet 1
      (run_checker_iteration "ORD1" "t1" exPaidJson exState).1.users_in_payment
      = none := by
  have h := c1_paid_transition_iff "ORD1" "t1" exPaidJson exState exOrder 1
    (by decide) (by decide)
  have hp : paidCond exPaidJson = true := by decide
  obtain ⟨h1, h2, h3, h4⟩ := h.2.1 hp
  exact ⟨by decide, by decide, hp, h1, h2, h3⟩

/-- Claim C2 (confirmed): the order lifecycle is monotonic along
`UNPAID -> {PAID, EXPIRED}`.  The timeout branch sets `EXPIRED` only
when the stored status is still `UNPAID` and otherwise leaves the status
alone (so a `PAID` order is never overwritten); a whole poller run
preserves `PAID`; and a run started on an `UNPAID` order ends in exactly
one of the two terminal states — `PAID` when some observed response passes
the completion test, `EXPIRED` otherwise — after which the poller performs
no further transition. -/
theorem c2_lifecycle_monotonic (oid n : String) (events : List PollEvent)
    (st : AppState) :
    (statusOf (run_checker_timeout oid st) oid
       = if statusOf st oid = some "UNPAID" then some "EXPIRED"
         else statusOf st oid) ∧
    (statusOf st oid = some "PAID" →
       statusOf (run_checker oid n events st) oid = some "PAID") ∧
    (statusOf st oid = some "UNPAID" →
       statusOf (run_checker oid n events st) oid
         = some (if events.any pollEventPaid then "PAID" else "EXPIRED")) :=
  ⟨run_checker_timeout_spec oid st,
   fun h => run_checker_preserves_paid n events h,
   fun h => run_checker_from_unpaid n events h⟩

/-- Witness for C2: an `UNPAID` order expires on an empty observation
window, and a `PAID` order stays `PAID` through both a timeout-only run
and a run that sees another paid response. -/
theorem c2_lifecycle_monotonic_witness :
    (statusOf exState "ORD1" = some "UNPAID" ∧
     statusOf (run_checker "ORD1" "t1" [] exState) "ORD1"
       = some (if List.any [] pollEventPaid then "PAID" else "EXPIRED")) ∧
    (statusOf exPaidState "ORD1" = some "PAID" ∧
     statusOf (run_checker "ORD1" "t2"
         [PollEvent.response exPaidJson] exPaidState) "ORD1"
       = some "PAID") :=
  ⟨⟨by decide, (c2_lifecycle_monotonic "ORD1" "t1" [] exState).2.2 (by decide)⟩,
   ⟨by decide, (c2_lifecycle_monotonic "ORD1" "t2"
      [PollEvent.response exPaidJson] exPaidState).2.1 (by decide)⟩⟩

/-- Claim C9 (confirmed): the single-active-order guard is one dict slot
per user.  A second valid purchase by the same user succeeds (it is not
rejected) and overwrites the slot with the new order id, leaving exactly
one guard entry for the user; when the earlier order's poller then reaches
a terminal state (paid or expired — any event sequence), it pops the
user's slot via `order_user_map`, so `check_payment_status` reports the
user as not paying even though the later order is still `UNPAID` and still
being polled. -/
theorem c9_guard_single_slot (st : AppState) (u : Int)
    (g i s z oid1 oid2 b1 m1 b2 m2 t1 t2 n : String)
    (events : List PollEvent) (price : Rat)
    (hg : g ≠ "") (hi : i ≠ "") (hs : pyStrip s ≠ "") (hz : pyStrip z ≠ "")
    (hpr : get_normal_price st.items i g = some price)
    (hb1 : b1 ≠ "") (hm1 : m1 ≠ "") (hb2 : b2 ≠ "") (hm2 : m2 ≠ "")
    (hf1 : ordersFind st.orders oid1 = none)
    (hf2 : ordersFind st.orders oid2 = none)
    (hne : oid1 ≠ oid2) :
    ∃ st1 st2,
      buy st u (some g) (some i) (some s) (some z) oid1 (some (b1, m1)) t1
        = .ok (.success oid1 b1 price, st1) ∧
      buy st1 u (some g) (some i) (some s) (some z) oid2 (some (b2, m2)) t2
        = .ok (.success oid2 b2 price, st2) ∧
      listGet u st2.users_in_payment = some oid2 ∧
      st2.users_in_payment.countP (fun p => p.1 == u) = 1 ∧
      listGet u (run_checker oid1 n events st2).users_in_payment = none ∧
      check_payment_status (run_checker oid1 n events st2) u = true ∧
      statusOf (run_checker oid1 n events st2) oid2 = some "UNPAID" := by
  have h1 := buy_ok_eq st u g i s z oid1 b1 m1 t1 price hg hi hs hz hpr hb1
    hm1 hf1
  have hf2' : ordersFind
      (st.orders ++ [buyOrder u g i (pyStrip s) (pyStrip z) m1 t1 price oid1])
      oid2 = none := by
    rw [ordersFind_append_none hf2]
    simp [buyOrder, hne]
  have h2 := buy_ok_eq
    { items := st.items,
      orders := st.orders ++
        [buyOrder u g i (pyStrip s) (pyStrip z) m1 t1 price oid1],
      users_in_payment := listSet u oid1 st.users_in_payment,
      order_user_map := listSet oid1 u st.order_user_map }
    u g i s z oid2 b2 m2 t2 price hg hi hs hz hpr hb2 hm2 hf2'
  have hmap : listGet oid1
      (listSet oid2 u (listSet oid1 u st.order_user_map)) = some u := by
    rw [listGet_listSet_ne hne u _, listGet_listSet_self]
  have hclear : ∀ st2 : AppState,
      st2.order_user_map = listSet oid2 u (listSet oid1 u st.order_user_map) →
      listGet u (run_checker oid1 n events st2).users_in_payment = none := by
    intro st2 hmap2
    exact run_checker_guard_cleared n events (by rw [hmap2]; exact hmap)
  have hc : listGet u (run_checker oid1 n events
      { items := st.items,
        orders := (st.orders ++
          [buyOrder u g i (pyStrip s) (pyStrip z) m1 t1 price oid1]) ++
          [buyOrder u g i (pyStrip s) (pyStrip z) m2 t2 price oid2],
        users_in_payment := listSet u oid2 (listSet u oid1 st.users_in_payment),
        order_user_map := listSet oid2 u (listSet oid1 u st.order_user_map) }
      ).users_in_payment = none :=
    hclear _ rfl
  refine ⟨{ items := st.items,
            orders := st.orders ++
              [buyOrder u g i (pyStrip s) (pyStrip z) m1 t1 price oid1],
            users_in_payment := listSet u oid1 st.users_in_payment,
            order_user_map := listSet oid1 u st.order_user_map },
          { items := st.items,
            orders := (st.orders ++
              [buyOrder u g i (pyStrip s) (pyStrip z) m1 t1 price oid1]) ++
              [buyOrder u g i (pyStrip s) (pyStrip z) m2 t2 price oid2],
            users_in_payment := listSet u oid2 (listSet u oid1 st.users_in_payment),
            order_user_map := listSet oid2 u (listSet oid1 u st.order_user_map) },
          h1, h2, listGet_listSet_self u oid2 _,
          countP_listSet_self u oid2 _, hc, ?_, ?_⟩
  · simp only [check_payment_status]
    rw [hc]
    rfl
  · rw [statusOf_run_checker_ne (Ne.symm hne)]
    show Option.map Order.status (ordersFind
      ((st.orders ++ [buyOrder u g i (pyStrip s) (pyStrip z) m1 t1 price oid1])
        ++ [buyOrder u g i (pyStrip s) (pyStrip z) m2 t2 price oid2]) oid2)
      = some "UNPAID"
    rw [ordersFind_append_none hf2']
    simp [buyOrder]

/-- Witness for C9: user 1 buys the same item twice; after the first
order's poller times out, the guard says the user is no longer paying
while the second order is still `UNPAID`. -/
theorem c9_guard_single_slot_witness :
    ∃ st1 st2,
      buy exEmpty 1 (some "MLBB") (some "86_DIAMOND") (some "123") (some "45")
        "ORDA" (some ("Q1", "M1")) "t1"
        = .ok (.success "ORDA" "Q1" (mkRat 3 100), st1) ∧
      buy st1 1 (some "MLBB") (some "86_DIAMOND") (some "123") (some "45")
        "ORDB" (some ("Q2", "M2")) "t2"
        = .ok (.success "ORDB" "Q2" (mkRat 3 100), st2) ∧
      listGet 1 st2.users_in_payment = some "ORDB" ∧
      st2.users_in_payment.countP (fun p => p.1 == 1) = 1 ∧
      listGet 1 (run_checker "ORDA" "t9" [] st2).users_in_payment = none ∧
      check_payment_status (run_checker "ORDA" "t9" [] st2) 1 = true ∧
      statusOf (run_checker "ORDA" "t9" [] st2) "ORDB" = some "UNPAID" :=
  c9_guard_single_slot exEmpty 1 "MLBB" "86_DIAMOND" "123" "45" "ORDA" "ORDB"
    "Q1" "M1" "Q2" "M2" "t1" "t2" "t9" [] (mkRat 3 100) (by decide)
    (by decide) (by decide) (by decide) (by decide) (by decide) (by decide)
    (by decide) (by decide) (by decide) (by decide) (by decide)

end WG
